import Mathlib

/-!
Flyteplugins: array task state and catalog writer.

A shallow embedding of

* `go/tasks/pluginmachinery/v1/catalog/writer_processor.go`
  (`WriterWorkItem`, `NewWriterWorkItem`, `writerProcessor.Process`),
* `go/tasks/v1/array/state.go`
  (`Phase`, `State`, `ToArrayJob`, `DetermineDiscoverability`,
  `ConstructInputReaders`, `ConstructOutputWriters`),
* the monitoring step `CheckSubTasksState` exercised by
  `go/tasks/plugins/array/awsbatch/monitor_test.go`.

Go functions become total Lean functions.  A Go call either returns or panics
(`Outcome`); calls made on collaborators (the catalog client's `Put`, the data
store's `GetPath`) are recorded in an explicit call log so that "was not
invoked" is a statement about a value.  Logging calls have no effect on the
returned values and are left out.
-/

namespace Flyteplugins

/-! ## Go runtime: errors and panics -/

/-- The string type `errors.ErrorCode` of `go/tasks/v1/errors`. -/
abbrev ErrorCode := String

/-- Modelled from the spec: the constant `errors.BadTaskSpecification` of the package
`go/tasks/v1/errors` (section 7: malformed or missing task template or array-job
descriptor). -/
def BadTaskSpecification : ErrorCode := "BadTaskSpecification"

/-- Modelled from the spec: the constant `errors.DownstreamSystemError` of the package
`go/tasks/v1/errors` (section 7: a catalog or backend call failed). -/
def DownstreamSystemError : ErrorCode := "DownstreamSystemError"

/-- Go `error` values as far as this code can tell them apart: an error without a task
code (built by `fmt.Errorf`, or coming out of a library), a coded task error, and a
coded task error that wraps a cause. -/
inductive GoError where
  | plain (msg : String)
  | task (code : ErrorCode) (msg : String)
  | taskWithCause (code : ErrorCode) (msg : String) (cause : GoError)
  deriving DecidableEq, Repr

namespace GoError

/-- The task error code of an error, when it has one. -/
def code : GoError → Option ErrorCode
  | plain _ => none
  | task c _ => some c
  | taskWithCause c _ _ => some c

/-- The message of an error (without the cause). -/
def message : GoError → String
  | plain m => m
  | task _ m => m
  | taskWithCause _ m _ => m

/-- The wrapped cause of an error, when it has one. -/
def cause : GoError → Option GoError
  | plain _ => none
  | task _ _ => none
  | taskWithCause _ _ c => some c

end GoError

/-- Modelled from the spec: `errors.Errorf(code, msg)` of `go/tasks/v1/errors`, which is
not among the sources: an error of the given kind carrying the formatted message. -/
def Errorf (errorCode : ErrorCode) (msg : String) : GoError :=
  GoError.task errorCode msg

/-- Modelled from the spec: `errors.Wrapf(code, err, msg)` of `go/tasks/v1/errors`, which
is not among the sources: a "wrapped" error of the given kind that carries the formatted
message and keeps `err` as its cause. -/
def Wrapf (errorCode : ErrorCode) (err : GoError) (msg : String) : GoError :=
  GoError.taskWithCause errorCode msg err

/-- How a Go call ends: it returns a value, or it panics. -/
inductive Outcome (α : Type) where
  | returned (value : α)
  | panicked (reason : String)
  deriving DecidableEq, Repr

/-- A call together with the log of the collaborator calls it made, oldest first. -/
structure Logged (κ α : Type) where
  outcome : Outcome α
  calls : List κ
  deriving DecidableEq, Repr

/-! ## `catalog/writer_processor.go` -/

namespace catalog

/-- The status `workqueue.WorkStatus` of a work item. -/
inductive WorkStatus where
  | WorkStatusNotDone
  | WorkStatusDone
  | WorkStatusFailed
  deriving DecidableEq, Repr

open WorkStatus

/-- The string type `workqueue.WorkItemID`. -/
abbrev WorkItemID := String

/-- The task identifier `core.Identifier` stored in a catalog key. -/
structure Identifier where
  ResourceType : Nat
  Project : String
  Domain : String
  Name : String
  Version : String
  deriving DecidableEq, Repr

/-- The catalog key `core.CatalogKey`, with the fields the spec lists. -/
structure CatalogKey where
  Identifier : Identifier
  CacheVersion : String
  InputReference : String
  deriving DecidableEq, Repr

/-- An output-data handle (`io.OutputReader`). -/
structure OutputReader where
  handle : String
  deriving DecidableEq, Repr

/-- Cache metadata (`core.CatalogMetadata`). -/
structure CatalogMetadata where
  entries : List (String × String)
  deriving DecidableEq, Repr

/-- The struct `WriterWorkItem`. -/
structure WriterWorkItem where
  id : WorkItemID
  workStatus : WorkStatus
  key : CatalogKey
  data : OutputReader
  metadata : CatalogMetadata
  deriving DecidableEq, Repr

/-- A value of the interface `workqueue.WorkItem` by its dynamic type: the nil interface,
a `*WriterWorkItem` (a pointer, which may itself be nil), or a value of some other type
(for instance a reader item), of which only the type name matters here. -/
inductive WorkItem where
  | nilItem
  | writer (ptr : Option WriterWorkItem)
  | other (typeName : String) (id : WorkItemID)
  deriving DecidableEq, Repr

/-- Function `NewWriterWorkItem`: a pointer to a fresh `WriterWorkItem`; `workStatus` is left at
its zero value. -/
def NewWriterWorkItem (id : WorkItemID) (key : CatalogKey) (data : OutputReader)
    (metadata : CatalogMetadata) : WorkItem :=
  WorkItem.writer (some
    { id := id, workStatus := WorkStatusNotDone, key := key, data := data,
      metadata := metadata })

/-- The interface `core.CatalogClient`, as far as `Process` uses it. -/
structure CatalogClient where
  Put : CatalogKey → OutputReader → CatalogMetadata → Option GoError

/-- The struct `writerProcessor`. -/
structure writerProcessor where
  catalogClient : CatalogClient

/-- The arguments of one `Put` call. -/
abbrev PutCall := CatalogKey × OutputReader × CatalogMetadata

/-- The message `Process` formats for a failed `Put`; `fmtIdentifier` is how the `%s`
verb of Go's `fmt` renders a `core.Identifier`. -/
def putErrorMessage (fmtIdentifier : Identifier → String) (wi : WriterWorkItem) : String :=
  "Error writing [" ++ wi.id ++ "] to catalog, key id [" ++ fmtIdentifier wi.key.Identifier
    ++ "] cache version [" ++ wi.key.CacheVersion ++ "]"

/-- Method `writerProcessor.Process`.  The type assertion `workItem.(*WriterWorkItem)` holds
exactly for the `writer` values, a nil pointer included; reading `wi.key` through a nil
pointer panics before `Put` is called. -/
def writerProcessor.Process (p : writerProcessor) (fmtIdentifier : Identifier → String)
    (workItem : WorkItem) : Logged PutCall (WorkStatus × Option GoError) :=
  match workItem with
  | WorkItem.writer ptr =>
    match ptr with
    | none => ⟨Outcome.panicked "invalid memory address or nil pointer dereference", []⟩
    | some wi =>
      match p.catalogClient.Put wi.key wi.data wi.metadata with
      | some err =>
        ⟨Outcome.returned (WorkStatusNotDone,
            some (Wrapf DownstreamSystemError err (putErrorMessage fmtIdentifier wi))),
          [(wi.key, wi.data, wi.metadata)]⟩
      | none => ⟨Outcome.returned (WorkStatusDone, none), [(wi.key, wi.data, wi.metadata)]⟩
  | _ => ⟨Outcome.returned (WorkStatusNotDone, some (GoError.plain "wrong work item type")), []⟩

/-- Function `NewWriterProcessor`. -/
def NewWriterProcessor (catalogClient : CatalogClient) : writerProcessor :=
  { catalogClient := catalogClient }

end catalog

/-! ## `v1/array/state.go` -/

namespace k8sarray

/-- The type `Phase` (`uint8`): the ordinal of the phase. -/
abbrev Phase := Nat

/-- First constant of the `iota` block. -/
def PhaseNotStarted : Phase := 0
/-- Second constant of the `iota` block. -/
def PhaseSubmittedToCatalogReader : Phase := 1
/-- Third constant of the `iota` block. -/
def PhaseMappingFileCreated : Phase := 2
/-- Fourth constant of the `iota` block. -/
def PhaseJobSubmitted : Phase := 3
/-- Fifth constant of the `iota` block. -/
def PhaseJobsFinished : Phase := 4

/-- The struct `arraystatus.ArrayStatus`: the per-index phases of the sub tasks. -/
structure ArrayStatus where
  Detailed : List Nat
  deriving DecidableEq, Repr

/-- The struct `State`. -/
structure State where
  currentPhase : Phase
  actualArraySize : Int
  arrayStatus : ArrayStatus
  deriving DecidableEq, Repr

/-- Method `State.GetActualArraySize`. -/
def State.GetActualArraySize (s : State) : Int := s.actualArraySize

/-- Method `State.GetPhase`. -/
def State.GetPhase (s : State) : Phase := s.currentPhase

/-- Method `State.GetArrayStatus`. -/
def State.GetArrayStatus (s : State) : ArrayStatus := s.arrayStatus

/-- Method `State.SetActualArraySize`. -/
def State.SetActualArraySize (s : State) (size : Int) : State :=
  { s with actualArraySize := size }

/-- Method `State.SetPhase`. -/
def State.SetPhase (s : State) (newPhase : Phase) : State :=
  { s with currentPhase := newPhase }

/-- Method `State.SetArrayStatus`. -/
def State.SetArrayStatus (s : State) (state : ArrayStatus) : State :=
  { s with arrayStatus := state }

/-- A protobuf `structpb.Struct`: field names with the JSON text of their values. -/
structure Struct where
  fields : List (String × String)
  deriving DecidableEq, Repr

/-- The message `idlPlugins.ArrayJob` (all fields `int64`). -/
structure ArrayJob where
  Parallelism : Int
  Size : Int
  MinSuccesses : Int
  deriving DecidableEq, Repr

/-- The message `core.TaskMetadata`, as far as it is read here. -/
structure TaskMetadata where
  Discoverable : Bool
  deriving DecidableEq, Repr

/-- The message `core.TaskTemplate`, as far as it is read here. -/
structure TaskTemplate where
  Custom : Option Struct
  Metadata : Option TaskMetadata
  deriving DecidableEq, Repr

/-- Method `TaskTemplate.GetCustom` on a non-nil template. -/
def TaskTemplate.GetCustom (t : TaskTemplate) : Option Struct := t.Custom

/-- The string type `storage.DataReference`. -/
abbrev DataReference := String

/-- A `*storage.DataStore`; only its identity matters here. -/
structure DataStore where
  name : String
  deriving DecidableEq, Repr

/-- What `state.go` calls and is not among the sources.  Of the package:
`utils.UnmarshalStruct(structObj, msg)`, which fills `msg` in place and returns an error
or nil, and `GetPath(ctx, dataStore, prefix, suffix)`, which returns a reference or an
error and is taken to depend on its arguments only.  Of the Go runtime on the machine:
`canAllocate bytes`, whether the allocator can provide a block of that many bytes, and
`growslice oldCap newLen`, the capacity the runtime gives a slice of capacity `oldCap`
that has to hold `newLen` elements, or `none` when it cannot allocate the grown slice. -/
structure Env where
  UnmarshalStruct : Option Struct → ArrayJob → ArrayJob × Option GoError
  GetPath : DataStore → DataReference → String → Except GoError DataReference
  canAllocate : Nat → Bool
  growslice : Nat → Nat → Option Nat

/-- The interface `core.TaskExecutionContext`, as far as `DetermineDiscoverability` uses
it: the result of `TaskReader().Read(ctx)` (a template pointer and an error), the data
store, and the two prefix paths. -/
structure TaskExecutionContext where
  Read : Option TaskTemplate × Option GoError
  DataStore : DataStore
  GetInputPrefixPath : DataReference
  GetOutputPrefixPath : DataReference

/-- Function `strconv.Itoa`: the decimal string of an integer. -/
def Itoa (i : Int) : String := toString i

/-- The arguments of one `GetPath` call: the prefix and the suffix. -/
abbrev GetPathCall := DataReference × String

/-- Function `ToArrayJob`: unmarshals into a fresh `ArrayJob` and returns the pointer to it (never
nil) together with the unmarshalling error. -/
def ToArrayJob (env : Env) (structObj : Option Struct) : Option ArrayJob × Option GoError :=
  let arrayJob : ArrayJob := { Parallelism := 0, Size := 0, MinSuccesses := 0 }
  let r := env.UnmarshalStruct structObj arrayJob
  (some r.1, r.2)

/-- The size in bytes of one `storage.DataReference`, a string header, on a 64-bit
platform. -/
def elemSize : Nat := 16

/-- The constant `maxAlloc` of the Go runtime on a 64-bit platform with 48 heap address
bits: no allocation may be larger. -/
def maxAlloc : Nat := 2 ^ 48

/-- A Go slice of data references: its elements (`len` of them) and its capacity. -/
structure Slice where
  elems : List DataReference
  cap : Nat
  deriving DecidableEq, Repr

/-- The expression `make([]storage.DataReference, size)`: the runtime panics for a
negative length and for one whose bytes pass `maxAlloc`; below that limit the slice of
`size` empty references exists if the allocator can provide the memory, and the program
dies otherwise. -/
def makeSlice (env : Env) (size : Int) : Outcome Slice :=
  if size < 0 ∨ size.toNat * elemSize > maxAlloc then
    Outcome.panicked "makeslice: len out of range"
  else if env.canAllocate (size.toNat * elemSize) then
    Outcome.returned { elems := List.replicate size.toNat "", cap := size.toNat }
  else Outcome.panicked "out of memory"

/-- The expression `append(s, x)`: in place while the capacity lasts; otherwise the
runtime grows the slice, which panics when the needed length passes `maxAlloc` and dies
when the grown slice cannot be allocated. -/
def appendSlice (env : Env) (s : Slice) (x : DataReference) : Outcome Slice :=
  if s.elems.length < s.cap then Outcome.returned { elems := s.elems ++ [x], cap := s.cap }
  else if (s.elems.length + 1) * elemSize > maxAlloc then
    Outcome.panicked "growslice: len out of range"
  else
    match env.growslice s.cap (s.elems.length + 1) with
    | none => Outcome.panicked "out of memory"
    | some newCap => Outcome.returned { elems := s.elems ++ [x], cap := newCap }

/-- The loop `for i := 0; i < size; i++` shared by `ConstructInputReaders`
and `ConstructOutputWriters`, entered at index `i` with `remaining = size - i` rounds to
go: `remaining = 0` is the exit `i < size` false.  `arrayInputPaths` is the local slice
and `calls` the `GetPath` calls made so far. -/
def pathLoop (env : Env) (dataStore : DataStore) (pathPrefix : DataReference) :
    (remaining : Nat) → (i : Nat) → (arrayInputPaths : Slice) →
    (calls : List GetPathCall) → Logged GetPathCall (Option GoError)
  | 0, _, _, calls => ⟨Outcome.returned none, calls⟩
  | remaining + 1, i, arrayInputPaths, calls =>
    match env.GetPath dataStore pathPrefix (Itoa (Int.ofNat i)) with
    | Except.error err =>
      ⟨Outcome.returned (some err), calls ++ [(pathPrefix, Itoa (Int.ofNat i))]⟩
    | Except.ok dataReference =>
      match appendSlice env arrayInputPaths dataReference with
      | Outcome.panicked reason =>
        ⟨Outcome.panicked reason, calls ++ [(pathPrefix, Itoa (Int.ofNat i))]⟩
      | Outcome.returned grown =>
        pathLoop env dataStore pathPrefix remaining (i + 1) grown
          (calls ++ [(pathPrefix, Itoa (Int.ofNat i))])

/-- Function `ConstructInputReaders`: `make([]storage.DataReference, size)`, which may
panic before any path is asked for, then the loop, which runs `size` times. -/
def ConstructInputReaders (env : Env) (dataStore : DataStore) (inputPrefix : DataReference)
    (size : Int) : Logged GetPathCall (Option GoError) :=
  match makeSlice env size with
  | Outcome.panicked reason => ⟨Outcome.panicked reason, []⟩
  | Outcome.returned arrayInputPaths =>
    pathLoop env dataStore inputPrefix size.toNat 0 arrayInputPaths []

/-- Function `ConstructOutputWriters`: the same allocation and loop on the output prefix (the
value built by `ioutils.NewSimpleOutputReader()` in the loop body is dropped). -/
def ConstructOutputWriters (env : Env) (dataStore : DataStore) (outputPrefix : DataReference)
    (size : Int) : Logged GetPathCall (Option GoError) :=
  match makeSlice env size with
  | Outcome.panicked reason => ⟨Outcome.panicked reason, []⟩
  | Outcome.returned arrayInputPaths =>
    pathLoop env dataStore outputPrefix size.toNat 0 arrayInputPaths []

/-- Function `DetermineDiscoverability` (the `catalogReader` argument is not used by the body).
Both `err = Construct...(...)` assignments are followed by no test of `err`; a panic in
either call ends the function.  `int(arrayJob.Size)` is the identity on a 64-bit
platform. -/
def DetermineDiscoverability (env : Env) (tCtx : TaskExecutionContext) (state : State) :
    Logged GetPathCall (State × Option GoError) :=
  match tCtx.Read with
  | (_, some err) => ⟨Outcome.returned (state, some err), []⟩
  | (none, none) =>
    ⟨Outcome.returned (state,
      some (Errorf BadTaskSpecification "Required value not set, taskTemplate is nil")), []⟩
  | (some taskTemplate, none) =>
    match ToArrayJob env taskTemplate.GetCustom with
    | (_, some err) => ⟨Outcome.returned (state, some err), []⟩
    | (none, none) =>
      ⟨Outcome.returned (state,
        some (Errorf BadTaskSpecification "Could not extract custom array job")), []⟩
    | (some arrayJob, none) =>
      if taskTemplate.Metadata.isSome
          && (taskTemplate.Metadata.map (fun m => m.Discoverable)).getD false then
        let inputs := ConstructInputReaders env tCtx.DataStore tCtx.GetInputPrefixPath
          arrayJob.Size
        match inputs.outcome with
        | Outcome.panicked reason => ⟨Outcome.panicked reason, inputs.calls⟩
        | Outcome.returned _ =>
          let outputs := ConstructOutputWriters env tCtx.DataStore tCtx.GetOutputPrefixPath
            arrayJob.Size
          match outputs.outcome with
          | Outcome.panicked reason =>
            ⟨Outcome.panicked reason, inputs.calls ++ outputs.calls⟩
          | Outcome.returned _ =>
            ⟨Outcome.returned (state, none), inputs.calls ++ outputs.calls⟩
      else ⟨Outcome.returned (state, none), []⟩

end k8sarray

/-! ## `plugins/array/awsbatch`: the monitoring step

`monitor_test.go` calls `CheckSubTasksState`; the function itself, the job store and the
`arrayCore` state are not among the sources and are written down from the specification
(sections 3, 4.4 and 4.5). -/

namespace core

/-- Modelled from the spec: the phase `core.Phase` of one sub-execution, not among the
sources: in progress (`PhaseUndefined`, `PhaseQueued`, `PhaseRunning`),
terminal-success (`PhaseSuccess`), retryable failure and non-retryable failure. -/
inductive Phase where
  | PhaseUndefined
  | PhaseQueued
  | PhaseRunning
  | PhaseSuccess
  | PhaseRetryableFailure
  | PhasePermanentFailure
  deriving DecidableEq, Repr

/-- Modelled from the spec: `Phase.IsSuccess`, not among the sources: the phase is
terminal-success. -/
def Phase.IsSuccess : Phase → Bool
  | PhaseSuccess => true
  | _ => false

/-- Modelled from the spec: the "non-retryable failure" phases of section 4.5, whose test
is not among the sources. -/
def Phase.IsPermanentFailure : Phase → Bool
  | PhasePermanentFailure => true
  | _ => false

end core

namespace arrayCore

/-- Modelled from the spec: the phase `arrayCore.Phase` of an array task, not among the
sources: the seven phases of section 4.5 in their order, and the terminal failure
phase. -/
inductive Phase where
  | PhaseNotStarted
  | PhaseSubmittedToCatalogReader
  | PhaseMappingFileCreated
  | PhaseJobSubmitted
  | PhaseCheckingSubTaskExecutions
  | PhaseWriteToDiscovery
  | PhaseJobsFinished
  | PhaseTerminalFailure
  deriving DecidableEq, Repr

/-- Modelled from the spec: `arraystatus.ArrayStatus`, not among the sources: `Detailed`
holds one phase per compacted index. -/
structure ArrayStatus where
  Detailed : List core.Phase
  deriving DecidableEq, Repr

/-- Modelled from the spec: the struct `arrayCore.State` of section 3, not among the
sources. -/
structure State where
  CurrentPhase : Phase
  ExecutionArraySize : Int
  OriginalArraySize : Int
  OriginalMinSuccesses : Int
  ArrayStatus : ArrayStatus
  IndexesToCache : List Bool
  deriving DecidableEq, Repr

end arrayCore

namespace awsbatch

/-- Modelled from the spec: `JobStatus`, not among the sources: the phase of a job (the
backend fields play no part). -/
structure JobStatus where
  Phase : core.Phase
  deriving DecidableEq, Repr

/-- Modelled from the spec: the struct `Job` of section 3, not among the sources: a job
with its status and its ordered sub-jobs, each a job of its own. -/
inductive Job where
  | mk (ID : String) (Status : JobStatus) (SubJobs : List Job)

/-- The field `Job.ID`. -/
def Job.ID : Job → String
  | Job.mk id _ _ => id

/-- The field `Job.Status`. -/
def Job.Status : Job → JobStatus
  | Job.mk _ status _ => status

/-- The field `Job.SubJobs`. -/
def Job.SubJobs : Job → List Job
  | Job.mk _ _ subJobs => subJobs

/-- Modelled from the spec: the SubJob Store of section 4.4, not among the sources: the
root job of each execution name, and the backend-specific poll (an external
collaborator) that refreshes the phases of a stored job and may fail. -/
structure JobStore where
  jobs : List (String × Job)
  poll : Job → Except GoError Job

/-- Modelled from the spec: the fetch of sections 4.4 and 4.5, not among the sources:
the root job stored for `name`, refreshed by the backend poll, if there is one; the
error of the poll if it fails. -/
def JobStore.Get (store : JobStore) (name : String) : Except GoError (Option Job) :=
  match store.jobs.lookup name with
  | none => Except.ok none
  | some job =>
    match store.poll job with
    | Except.error err => Except.error err
    | Except.ok refreshed => Except.ok (some refreshed)

/-- Modelled from the spec: the struct `awsbatch.State` built by the test, not among the
sources: it embeds the `arrayCore` state and adds the backend job handle. -/
structure State extends arrayCore.State where
  ExternalJobID : Option String
  JobDefinitionArn : String
  deriving DecidableEq, Repr

/-- Modelled from the spec: the method `State.GetPhase` the test reads the phase with,
not among the sources. -/
def State.GetPhase (s : State) : arrayCore.Phase := s.CurrentPhase

/-- Modelled from the spec: the count of section 4.5, whose code is not among the
sources: the number of sub-jobs whose phase is terminal-success. -/
def successCount (subJobs : List Job) : Int :=
  ((subJobs.filter (fun j => j.Status.Phase.IsSuccess)).length : Int)

/-- Modelled from the spec: the count of section 4.5, whose code is not among the
sources: the number of sub-jobs in a non-retryable failure phase. -/
def failedCount (subJobs : List Job) : Int :=
  ((subJobs.filter (fun j => j.Status.Phase.IsPermanentFailure)).length : Int)

/-- Modelled from the spec: the in-place update of `Detailed` of section 4.5, whose code
is not among the sources: entry `i` takes the phase of sub-job `i`; the length stays. -/
def updateDetailed : List core.Phase → List Job → List core.Phase
  | [], _ => []
  | d :: ds, [] => d :: ds
  | _ :: ds, j :: js => j.Status.Phase :: updateDetailed ds js

/-- Modelled from the spec: the Aggregator of section 4.5, whose code is not among the
sources: `WriteToDiscovery` once the successes reach
`OriginalMinSuccesses - (OriginalArraySize - ExecutionArraySize)`; the terminal failure
phase when some sub-job failed for good and
`ExecutionArraySize - failedCount + successCount` cannot reach `OriginalMinSuccesses`;
`CheckingSubTaskExecutions` otherwise. -/
def Aggregator (s : arrayCore.State) (subJobs : List Job) : arrayCore.Phase :=
  if successCount subJobs ≥
      s.OriginalMinSuccesses - (s.OriginalArraySize - s.ExecutionArraySize) then
    arrayCore.Phase.PhaseWriteToDiscovery
  else if 0 < failedCount subJobs
      ∧ s.ExecutionArraySize - failedCount subJobs + successCount subJobs
          < s.OriginalMinSuccesses then
    arrayCore.Phase.PhaseTerminalFailure
  else arrayCore.Phase.PhaseCheckingSubTaskExecutions

/-- Modelled from the spec: `CheckSubTasksState` of section 4.5, whose code is not among
the sources.  With `ExecutionArraySize == 0` monitoring is skipped and the phase goes
straight to `WriteToDiscovery` (Scenario D).  Otherwise the job is fetched from the
store: a failed backend poll is returned wrapped as `DownstreamSystemError` without
advancing the phase (section 7); a job the store does not hold leaves the state as it is
(the test `Not in cache`); and for a fetched job the phase is the aggregator's and
`Detailed` is refreshed from the sub-jobs. -/
def CheckSubTasksState (jobName : String) (jobStore : JobStore) (currentState : State) :
    State × Option GoError :=
  if currentState.ExecutionArraySize = 0 then
    ({ currentState with CurrentPhase := arrayCore.Phase.PhaseWriteToDiscovery }, none)
  else
    match jobStore.Get jobName with
    | Except.error err =>
      (currentState,
        some (Wrapf DownstreamSystemError err
          ("Failed to refresh the sub-jobs of [" ++ jobName ++ "]")))
    | Except.ok none => (currentState, none)
    | Except.ok (some job) =>
      ({ currentState with
          CurrentPhase := Aggregator currentState.toState job.SubJobs
          ArrayStatus :=
            { Detailed := updateDetailed currentState.ArrayStatus.Detailed job.SubJobs } },
        none)

end awsbatch

/-! ## Concrete inputs used below -/

namespace catalog

/-- A catalog key for the examples. -/
def exampleKey : CatalogKey :=
  { Identifier :=
      { ResourceType := 1, Project := "flyte", Domain := "dev", Name := "task",
        Version := "v1" },
    CacheVersion := "1.0", InputReference := "s3://bucket/inputs" }

/-- A rendering of identifiers for the examples. -/
def exampleFmt (i : Identifier) : String :=
  i.Project ++ ":" ++ i.Domain ++ ":" ++ i.Name ++ ":" ++ i.Version

/-- A client whose `Put` always fails. -/
def failingClient : CatalogClient :=
  { Put := fun _ _ _ => some (GoError.plain "catalog unavailable") }

/-- A client whose `Put` always succeeds. -/
def workingClient : CatalogClient :=
  { Put := fun _ _ _ => none }

end catalog

namespace k8sarray

/-- A state in the first phase. -/
def exampleState : State :=
  { currentPhase := PhaseNotStarted, actualArraySize := 0, arrayStatus := { Detailed := [] } }

/-- An allocator for the examples: a machine that provides blocks of up to 1 GiB. -/
def exampleCanAllocate (bytes : Nat) : Bool := decide (bytes ≤ 2 ^ 30)

/-- A growth rule for the examples: the capacity doubles, or becomes the needed length
if that is larger, as long as the allocator provides the block. -/
def exampleGrowslice (oldCap newLen : Nat) : Option Nat :=
  if exampleCanAllocate (max (2 * oldCap) newLen * elemSize) then
    some (max (2 * oldCap) newLen)
  else none

/-- An environment whose unmarshaller decodes every descriptor to an array job of the
given size and whose `GetPath` joins prefix and suffix. -/
def envOfSize (size : Int) : Env :=
  { UnmarshalStruct := fun _ msg => ({ msg with Size := size }, none),
    GetPath := fun _ pathPrefix suffix => Except.ok (pathPrefix ++ "/" ++ suffix),
    canAllocate := exampleCanAllocate, growslice := exampleGrowslice }

/-- An environment whose unmarshaller decodes to an array job of size one and whose
`GetPath` always fails. -/
def envPathFails : Env :=
  { UnmarshalStruct := fun _ msg => ({ msg with Size := 1 }, none),
    GetPath := fun _ _ _ => Except.error (GoError.plain "failed to construct path"),
    canAllocate := exampleCanAllocate, growslice := exampleGrowslice }

/-- An environment whose `GetPath` fails from suffix `"2"` on. -/
def envPathFailsFromTwo : Env :=
  { UnmarshalStruct := fun _ msg => ({ msg with Size := 4 }, none),
    GetPath := fun _ pathPrefix suffix =>
      if suffix = "0" ∨ suffix = "1" then Except.ok (pathPrefix ++ "/" ++ suffix)
      else Except.error (GoError.plain ("no path for " ++ suffix)),
    canAllocate := exampleCanAllocate, growslice := exampleGrowslice }

/-- An environment whose unmarshaller rejects every descriptor with an error that has no
task code, as a JSON decoder does. -/
def envUndecodable : Env :=
  { UnmarshalStruct := fun _ msg => (msg, some (GoError.plain "json: cannot unmarshal")),
    GetPath := fun _ pathPrefix suffix => Except.ok (pathPrefix ++ "/" ++ suffix),
    canAllocate := exampleCanAllocate, growslice := exampleGrowslice }

/-- A task context whose reader yields the given template pointer and no error. -/
def contextOf (taskTemplate : Option TaskTemplate) : TaskExecutionContext :=
  { Read := (taskTemplate, none), DataStore := { name := "store" },
    GetInputPrefixPath := "s3://in", GetOutputPrefixPath := "s3://out" }

/-- A template marked discoverable. -/
def discoverableTemplate : TaskTemplate :=
  { Custom := some { fields := [("size", "1")] }, Metadata := some { Discoverable := true } }

/-- A template without metadata, hence not discoverable. -/
def plainTemplate : TaskTemplate :=
  { Custom := some { fields := [("size", "3")] }, Metadata := none }

/-- A template whose descriptor carries a size that is no number. -/
def undecodableTemplate : TaskTemplate :=
  { Custom := some { fields := [("size", "many")] }, Metadata := some { Discoverable := true } }

end k8sarray

namespace awsbatch

/-- The state of the test `Succeeded`: sizes 10 and 5, at least 5 successes. -/
def succeededState : State :=
  { CurrentPhase := arrayCore.Phase.PhaseCheckingSubTaskExecutions, ExecutionArraySize := 5,
    OriginalArraySize := 10, OriginalMinSuccesses := 5, ArrayStatus := { Detailed := [] },
    IndexesToCache := [], ExternalJobID := some "job-id", JobDefinitionArn := "" }

/-- A store that holds no job. -/
def emptyStore : JobStore :=
  { jobs := [], poll := fun j => Except.ok j }

/-- A store whose backend poll fails. -/
def unreachableStore (job : Job) : JobStore :=
  { jobs := [("generated-name", job)],
    poll := fun _ => Except.error (GoError.plain "backend unavailable") }

/-- The state of Scenario D: every index was a cache hit, nothing is executed. -/
def allHitsState : State :=
  { CurrentPhase := arrayCore.Phase.PhaseCheckingSubTaskExecutions, ExecutionArraySize := 0,
    OriginalArraySize := 2, OriginalMinSuccesses := 2, ArrayStatus := { Detailed := [] },
    IndexesToCache := [false, false], ExternalJobID := none, JobDefinitionArn := "" }

end awsbatch

/-! ## The catalog writer -/

namespace catalog

open WorkStatus

/-- C1: `writerProcessor.Process` returns status `Done` exactly when the item is a
(non-nil) Writer work item and `Put` on its key, data and metadata returns no error; and
whenever it returns `Done` the returned error is nil. -/
theorem Process_done_iff (p : writerProcessor) (fmtIdentifier : Identifier → String)
    (workItem : WorkItem) :
    ((∃ err, (p.Process fmtIdentifier workItem).outcome
          = Outcome.returned (WorkStatusDone, err)) ↔
      ∃ wi, workItem = WorkItem.writer (some wi)
        ∧ p.catalogClient.Put wi.key wi.data wi.metadata = none)
    ∧ (∀ err, (p.Process fmtIdentifier workItem).outcome
          = Outcome.returned (WorkStatusDone, err) → err = none) := by
  cases workItem with
  | nilItem => simp [writerProcessor.Process]
  | other typeName id => simp [writerProcessor.Process]
  | writer ptr =>
    cases ptr with
    | none => simp [writerProcessor.Process]
    | some wi =>
      cases h : p.catalogClient.Put wi.key wi.data wi.metadata with
      | none =>
        refine ⟨⟨fun _ => ⟨wi, rfl, h⟩, fun _ => ⟨none, ?_⟩⟩, ?_⟩
        · simp [writerProcessor.Process, h]
        · intro err herr
          simp [writerProcessor.Process, h] at herr
          exact herr.symm
      | some e =>
        refine ⟨⟨?_, ?_⟩, ?_⟩
        · rintro ⟨err, herr⟩
          simp [writerProcessor.Process, h] at herr
        · rintro ⟨wi2, hwi, hput⟩
          cases hwi
          rw [h] at hput
          cases hput
        · intro err herr
          simp [writerProcessor.Process, h] at herr

/-- C2: for a Writer work item built by `NewWriterWorkItem`, an error `e` from `Put`
makes `Process` return `NotDone` with an error of code `DownstreamSystemError` whose cause
is `e` and whose message is the formatted text holding the item id, the rendered key
identifier and the cache version (each occurs in the message), after exactly one `Put`
call. -/
theorem Process_put_error (p : writerProcessor) (fmtIdentifier : Identifier → String)
    (id : WorkItemID) (key : CatalogKey) (data : OutputReader) (metadata : CatalogMetadata)
    (e : GoError) (hput : p.catalogClient.Put key data metadata = some e) :
    ∃ err,
      p.Process fmtIdentifier (NewWriterWorkItem id key data metadata)
        = ⟨Outcome.returned (WorkStatusNotDone, some err), [(key, data, metadata)]⟩
      ∧ err.code = some DownstreamSystemError
      ∧ err.cause = some e
      ∧ err.message = "Error writing [" ++ id ++ "] to catalog, key id ["
          ++ fmtIdentifier key.Identifier ++ "] cache version [" ++ key.CacheVersion ++ "]"
      ∧ List.IsInfix id.data err.message.data
      ∧ List.IsInfix (fmtIdentifier key.Identifier).data err.message.data
      ∧ List.IsInfix key.CacheVersion.data err.message.data := by
  refine ⟨Wrapf DownstreamSystemError e
    (putErrorMessage fmtIdentifier
      { id := id, workStatus := WorkStatusNotDone, key := key, data := data,
        metadata := metadata }), ?_, rfl, rfl, rfl, ?_, ?_, ?_⟩
  · simp [writerProcessor.Process, NewWriterWorkItem, hput]
  · refine ⟨"Error writing [".data, ("] to catalog, key id [" ++ fmtIdentifier key.Identifier
      ++ "] cache version [" ++ key.CacheVersion ++ "]").data, ?_⟩
    simp [Wrapf, GoError.message, putErrorMessage, String.data_append]
  · refine ⟨("Error writing [" ++ id ++ "] to catalog, key id [").data,
      ("] cache version [" ++ key.CacheVersion ++ "]").data, ?_⟩
    simp [Wrapf, GoError.message, putErrorMessage, String.data_append]
  · refine ⟨("Error writing [" ++ id ++ "] to catalog, key id ["
      ++ fmtIdentifier key.Identifier ++ "] cache version [").data, "]".data, ?_⟩
    simp [Wrapf, GoError.message, putErrorMessage, String.data_append]

/-- Witness of C2: a client whose `Put` always fails, at work item `"item-0"`. -/
theorem Process_put_error_witness :
    failingClient.Put exampleKey { handle := "out" } { entries := [] }
        = some (GoError.plain "catalog unavailable")
    ∧ ∃ err,
      (NewWriterProcessor failingClient).Process exampleFmt
          (NewWriterWorkItem "item-0" exampleKey { handle := "out" } { entries := [] })
        = ⟨Outcome.returned (WorkStatusNotDone, some err),
            [(exampleKey, { handle := "out" }, { entries := [] })]⟩
      ∧ err.code = some DownstreamSystemError
      ∧ err.cause = some (GoError.plain "catalog unavailable")
      ∧ err.message = "Error writing [" ++ "item-0" ++ "] to catalog, key id ["
          ++ exampleFmt exampleKey.Identifier ++ "] cache version ["
          ++ exampleKey.CacheVersion ++ "]"
      ∧ List.IsInfix ("item-0" : String).data err.message.data
      ∧ List.IsInfix (exampleFmt exampleKey.Identifier).data err.message.data
      ∧ List.IsInfix exampleKey.CacheVersion.data err.message.data :=
  ⟨rfl, Process_put_error (NewWriterProcessor failingClient) exampleFmt "item-0" exampleKey
    { handle := "out" } { entries := [] } (GoError.plain "catalog unavailable") rfl⟩

/-- C3: for a work item that is not of the Writer variant, `Process` returns `NotDone`
with a non-nil error and its log of `Put` calls is empty. -/
theorem Process_wrong_type (p : writerProcessor) (fmtIdentifier : Identifier → String)
    (workItem : WorkItem) (hother : ∀ ptr, workItem ≠ WorkItem.writer ptr) :
    ∃ err, p.Process fmtIdentifier workItem
      = ⟨Outcome.returned (WorkStatusNotDone, some err), []⟩ := by
  cases workItem with
  | nilItem => exact ⟨GoError.plain "wrong work item type", rfl⟩
  | other typeName id => exact ⟨GoError.plain "wrong work item type", rfl⟩
  | writer ptr => exact absurd rfl (hother ptr)

/-- Witness of C3: a reader item handed to a writer processor whose client would
succeed. -/
theorem Process_wrong_type_witness :
    (∀ ptr, WorkItem.other "ReaderWorkItem" "item-1" ≠ WorkItem.writer ptr)
    ∧ ∃ err, (NewWriterProcessor workingClient).Process exampleFmt
        (WorkItem.other "ReaderWorkItem" "item-1")
      = ⟨Outcome.returned (WorkStatusNotDone, some err), []⟩ :=
  ⟨fun _ h => WorkItem.noConfusion h,
    Process_wrong_type (NewWriterProcessor workingClient) exampleFmt
      (WorkItem.other "ReaderWorkItem" "item-1") (fun _ h => WorkItem.noConfusion h)⟩

end catalog

namespace k8sarray

/-! ## Path construction -/

/-- On the loop indices `Itoa` is the decimal representation of the natural number. -/
theorem Itoa_ofNat (i : Nat) : Itoa (Int.ofNat i) = Nat.repr i := rfl

/-- An `append` whose result stays within a length the runtime can allocate succeeds and
makes the slice one element longer. -/
theorem appendSlice_ok (env : Env) (bound : Nat) (hlimit : bound * elemSize ≤ maxAlloc)
    (hgrow : ∀ c l, c < l → l ≤ bound → (env.growslice c l).isSome = true)
    (s : Slice) (x : DataReference) (hlen : s.elems.length + 1 ≤ bound) :
    ∃ grown, appendSlice env s x = Outcome.returned grown
      ∧ grown.elems.length = s.elems.length + 1 := by
  unfold appendSlice
  by_cases hcap : s.elems.length < s.cap
  · exact ⟨_, by rw [if_pos hcap], by simp⟩
  · have hfit : ¬ (s.elems.length + 1) * elemSize > maxAlloc := by
      have := Nat.mul_le_mul_right elemSize hlen
      omega
    rw [if_neg hcap, if_neg hfit]
    have hsome := hgrow s.cap (s.elems.length + 1) (by omega) hlen
    cases hg : env.growslice s.cap (s.elems.length + 1) with
    | none => rw [hg] at hsome; cases hsome
    | some newCap => exact ⟨_, rfl, by simp⟩

/-- When the slice can grow as far as needed and `GetPath` succeeds on every index the
loop still has to visit, the loop returns nil and has asked for exactly those indices, in
order. -/
theorem pathLoop_all_ok (env : Env) (dataStore : DataStore) (pathPrefix : DataReference)
    (bound : Nat) (hlimit : bound * elemSize ≤ maxAlloc)
    (hgrow : ∀ c l, c < l → l ≤ bound → (env.growslice c l).isSome = true) :
    ∀ (remaining i : Nat) (paths : Slice) (calls : List GetPathCall),
      paths.elems.length + remaining ≤ bound →
      (∀ j, i ≤ j → j < i + remaining →
        ∃ ref, env.GetPath dataStore pathPrefix (Nat.repr j) = Except.ok ref) →
      pathLoop env dataStore pathPrefix remaining i paths calls
        = ⟨Outcome.returned none,
            calls ++ (List.range' i remaining).map (fun j => (pathPrefix, Nat.repr j))⟩ := by
  intro remaining
  induction remaining with
  | zero => intro i paths calls _ _; simp [pathLoop]
  | succ r ih =>
    intro i paths calls hroom hok
    obtain ⟨ref, href⟩ := hok i (le_refl i) (by omega)
    obtain ⟨grown, happend, hgrown⟩ :=
      appendSlice_ok env bound hlimit hgrow paths ref (by omega)
    rw [pathLoop, Itoa_ofNat, href]
    simp only
    rw [happend]
    simp only
    rw [ih (i + 1) grown _ (by omega) (fun j h1 h2 => hok j (by omega) (by omega))]
    simp [List.range'_succ]

/-- When the slice can grow as far as needed and `GetPath` fails at index `k` and at no
earlier index of the loop, the loop returns that error and has asked for the indices up
to `k` and no further. -/
theorem pathLoop_first_error (env : Env) (dataStore : DataStore)
    (pathPrefix : DataReference) (bound : Nat) (hlimit : bound * elemSize ≤ maxAlloc)
    (hgrow : ∀ c l, c < l → l ≤ bound → (env.growslice c l).isSome = true)
    (k : Nat) (e : GoError)
    (hk : env.GetPath dataStore pathPrefix (Nat.repr k) = Except.error e) :
    ∀ (remaining i : Nat) (paths : Slice) (calls : List GetPathCall),
      paths.elems.length + remaining ≤ bound →
      i ≤ k → k < i + remaining →
      (∀ j, i ≤ j → j < k →
        ∃ ref, env.GetPath dataStore pathPrefix (Nat.repr j) = Except.ok ref) →
      pathLoop env dataStore pathPrefix remaining i paths calls
        = ⟨Outcome.returned (some e),
            calls ++ (List.range' i (k + 1 - i)).map (fun j => (pathPrefix, Nat.repr j))⟩ := by
  intro remaining
  induction remaining with
  | zero => intro i paths calls _ h1 h2; omega
  | succ r ih =>
    intro i paths calls hroom h1 h2 hok
    rcases Nat.eq_or_lt_of_le h1 with heq | hlt
    · subst heq
      rw [pathLoop, Itoa_ofNat, hk]
      simp
    · obtain ⟨ref, href⟩ := hok i (le_refl i) hlt
      obtain ⟨grown, happend, hgrown⟩ :=
        appendSlice_ok env bound hlimit hgrow paths ref (by omega)
      rw [pathLoop, Itoa_ofNat, href]
      simp only
      rw [happend]
      simp only
      rw [ih (i + 1) grown _ (by omega) (by omega) (by omega)
        (fun j h3 h4 => hok j (by omega) h4)]
      have hlen : k + 1 - i = (k + 1 - (i + 1)) + 1 := by omega
      rw [hlen, List.range'_succ]
      simp

/-- A loop that returns nil found `GetPath` succeeding on every index it had to visit. -/
theorem pathLoop_nil_all_ok (env : Env) (dataStore : DataStore)
    (pathPrefix : DataReference) :
    ∀ (remaining i : Nat) (paths : Slice) (calls : List GetPathCall),
      (pathLoop env dataStore pathPrefix remaining i paths calls).outcome
        = Outcome.returned none →
      ∀ j, i ≤ j → j < i + remaining →
        ∃ ref, env.GetPath dataStore pathPrefix (Nat.repr j) = Except.ok ref := by
  intro remaining
  induction remaining with
  | zero => intro i paths calls _ j h1 h2; omega
  | succ r ih =>
    intro i paths calls hnil j h1 h2
    rw [pathLoop, Itoa_ofNat] at hnil
    cases hget : env.GetPath dataStore pathPrefix (Nat.repr i) with
    | error err => rw [hget] at hnil; simp at hnil
    | ok ref =>
      rw [hget] at hnil
      simp only at hnil
      cases happend : appendSlice env paths ref with
      | panicked reason => rw [happend] at hnil; simp at hnil
      | returned grown =>
        rw [happend] at hnil
        rcases Nat.eq_or_lt_of_le h1 with heq | hlt
        · subst heq; exact ⟨ref, hget⟩
        · exact ih (i + 1) _ _ hnil j (by omega) (by omega)

/-- A length within the allocation limit that the allocator provides is made. -/
theorem makeSlice_ofNat (env : Env) (n : Nat) (hlimit : n * elemSize ≤ maxAlloc)
    (hmake : env.canAllocate (n * elemSize) = true) :
    makeSlice env (n : Int)
      = Outcome.returned { elems := List.replicate n "", cap := n } := by
  have hfit : ¬ (((n : Int) < 0) ∨ (n : Int).toNat * elemSize > maxAlloc) := by
    rw [Int.toNat_ofNat]
    omega
  unfold makeSlice
  rw [if_neg hfit, Int.toNat_ofNat, if_pos hmake]

/-- A length whose bytes pass the allocation limit makes `make` panic. -/
theorem makeSlice_too_large (env : Env) (n : Nat) (hlarge : n * elemSize > maxAlloc) :
    makeSlice env (n : Int) = Outcome.panicked "makeslice: len out of range" := by
  have hfit : ((n : Int) < 0) ∨ (n : Int).toNat * elemSize > maxAlloc := by
    rw [Int.toNat_ofNat]
    exact Or.inr hlarge
  unfold makeSlice
  rw [if_pos hfit]

/-- C8, as stated, fails: at size `2 ^ 62`, with a `GetPath` that succeeds for every
index, `make` panics in both functions before any path is asked for: neither returns nil
and neither has asked for the suffix `"0"`. -/
theorem Construct_too_large_counterexample :
    (∀ i, i < 2 ^ 62 → ∃ ref,
      (envOfSize 3).GetPath { name := "store" } "s3://in" (Nat.repr i) = Except.ok ref)
    ∧ ConstructInputReaders (envOfSize 3) { name := "store" } "s3://in"
          ((2 ^ 62 : Nat) : Int)
        = ⟨Outcome.panicked "makeslice: len out of range", []⟩
    ∧ ConstructOutputWriters (envOfSize 3) { name := "store" } "s3://in"
          ((2 ^ 62 : Nat) : Int)
        = ⟨Outcome.panicked "makeslice: len out of range", []⟩
    ∧ (ConstructInputReaders (envOfSize 3) { name := "store" } "s3://in"
          ((2 ^ 62 : Nat) : Int)).outcome ≠ Outcome.returned none
    ∧ (ConstructOutputWriters (envOfSize 3) { name := "store" } "s3://in"
          ((2 ^ 62 : Nat) : Int)).outcome ≠ Outcome.returned none := by
  have hmake : makeSlice (envOfSize 3) ((2 ^ 62 : Nat) : Int)
      = Outcome.panicked "makeslice: len out of range" :=
    makeSlice_too_large (envOfSize 3) (2 ^ 62) (by decide)
  have hin : ConstructInputReaders (envOfSize 3) { name := "store" } "s3://in"
      ((2 ^ 62 : Nat) : Int) = ⟨Outcome.panicked "makeslice: len out of range", []⟩ := by
    unfold ConstructInputReaders
    rw [hmake]
  have hout : ConstructOutputWriters (envOfSize 3) { name := "store" } "s3://in"
      ((2 ^ 62 : Nat) : Int) = ⟨Outcome.panicked "makeslice: len out of range", []⟩ := by
    unfold ConstructOutputWriters
    rw [hmake]
  refine ⟨fun i _ => ⟨_, rfl⟩, hin, hout, ?_, ?_⟩
  · rw [hin]; simp
  · rw [hout]; simp

/-- C8, amended: for a size `n ≥ 0` whose slices the runtime can allocate (`2 * n`
references stay within `maxAlloc`, the allocator provides the slice of `n` references and
the runtime can grow it up to `2 * n` references), `ConstructInputReaders` and
`ConstructOutputWriters` each ask `GetPath` for the suffixes `"0"`, `"1"`, ... (the
decimal strings of the indices) in increasing order under the given prefix: they return
nil exactly when `GetPath` succeeds on every index below `n`, having then asked for all
`n` suffixes; and when `k` is the smallest failing index they return its error, having
asked for the suffixes up to `k` and for none after it. -/
theorem Construct_requests_paths_in_order (env : Env) (dataStore : DataStore)
    (pathPrefix : DataReference) (n : Nat)
    (hlimit : 2 * n * elemSize ≤ maxAlloc)
    (hmake : env.canAllocate (n * elemSize) = true)
    (hgrow : ∀ c l, c < l → l ≤ 2 * n → (env.growslice c l).isSome = true) :
    (((ConstructInputReaders env dataStore pathPrefix (n : Int)).outcome
          = Outcome.returned none ↔
        ∀ i, i < n → ∃ ref, env.GetPath dataStore pathPrefix (Nat.repr i) = Except.ok ref)
      ∧ ((∀ i, i < n → ∃ ref, env.GetPath dataStore pathPrefix (Nat.repr i) = Except.ok ref) →
        ConstructInputReaders env dataStore pathPrefix (n : Int)
          = ⟨Outcome.returned none,
              (List.range n).map (fun i => (pathPrefix, Nat.repr i))⟩)
      ∧ (∀ k e, k < n → env.GetPath dataStore pathPrefix (Nat.repr k) = Except.error e →
        (∀ i, i < k → ∃ ref, env.GetPath dataStore pathPrefix (Nat.repr i) = Except.ok ref) →
        ConstructInputReaders env dataStore pathPrefix (n : Int)
          = ⟨Outcome.returned (some e),
              (List.range (k + 1)).map (fun i => (pathPrefix, Nat.repr i))⟩))
    ∧ (((ConstructOutputWriters env dataStore pathPrefix (n : Int)).outcome
          = Outcome.returned none ↔
        ∀ i, i < n → ∃ ref, env.GetPath dataStore pathPrefix (Nat.repr i) = Except.ok ref)
      ∧ ((∀ i, i < n → ∃ ref, env.GetPath dataStore pathPrefix (Nat.repr i) = Except.ok ref) →
        ConstructOutputWriters env dataStore pathPrefix (n : Int)
          = ⟨Outcome.returned none,
              (List.range n).map (fun i => (pathPrefix, Nat.repr i))⟩)
      ∧ (∀ k e, k < n → env.GetPath dataStore pathPrefix (Nat.repr k) = Except.error e →
        (∀ i, i < k → ∃ ref, env.GetPath dataStore pathPrefix (Nat.repr i) = Except.ok ref) →
        ConstructOutputWriters env dataStore pathPrefix (n : Int)
          = ⟨Outcome.returned (some e),
              (List.range (k + 1)).map (fun i => (pathPrefix, Nat.repr i))⟩)) := by
  have hmade := makeSlice_ofNat env n
    (Nat.le_trans (Nat.mul_le_mul_right elemSize (by omega)) hlimit) hmake
  have hroom : (List.replicate n "").length + n ≤ 2 * n := by simp; omega
  have hall : (∀ i, i < n →
        ∃ ref, env.GetPath dataStore pathPrefix (Nat.repr i) = Except.ok ref) →
      pathLoop env dataStore pathPrefix n 0 { elems := List.replicate n "", cap := n } []
        = ⟨Outcome.returned none,
            (List.range n).map (fun i => (pathPrefix, Nat.repr i))⟩ := by
    intro hok
    rw [pathLoop_all_ok env dataStore pathPrefix (2 * n) hlimit hgrow n 0 _ _ hroom
      (fun j _ h2 => hok j (by omega)), List.range_eq_range']
    simp
  have hnil : (pathLoop env dataStore pathPrefix n 0
        { elems := List.replicate n "", cap := n } []).outcome = Outcome.returned none →
      ∀ i, i < n → ∃ ref, env.GetPath dataStore pathPrefix (Nat.repr i) = Except.ok ref :=
    fun h i hi => pathLoop_nil_all_ok env dataStore pathPrefix n 0 _ _ h i (Nat.zero_le i)
      (by omega)
  have herr : ∀ k e, k < n →
      env.GetPath dataStore pathPrefix (Nat.repr k) = Except.error e →
      (∀ i, i < k → ∃ ref, env.GetPath dataStore pathPrefix (Nat.repr i) = Except.ok ref) →
      pathLoop env dataStore pathPrefix n 0 { elems := List.replicate n "", cap := n } []
        = ⟨Outcome.returned (some e),
            (List.range (k + 1)).map (fun i => (pathPrefix, Nat.repr i))⟩ := by
    intro k e hk hfail hok
    rw [pathLoop_first_error env dataStore pathPrefix (2 * n) hlimit hgrow k e hfail n 0 _ _
      hroom (Nat.zero_le k) (by omega) (fun j _ h2 => hok j h2), List.range_eq_range']
    simp
  have hin : ConstructInputReaders env dataStore pathPrefix (n : Int)
      = pathLoop env dataStore pathPrefix n 0
          { elems := List.replicate n "", cap := n } [] := by
    unfold ConstructInputReaders
    rw [hmade, Int.toNat_ofNat]
  have hout : ConstructOutputWriters env dataStore pathPrefix (n : Int)
      = pathLoop env dataStore pathPrefix n 0
          { elems := List.replicate n "", cap := n } [] := by
    unfold ConstructOutputWriters
    rw [hmade, Int.toNat_ofNat]
  rw [hin, hout]
  exact ⟨⟨⟨hnil, fun h => by rw [hall h]⟩, hall, herr⟩,
    ⟨⟨hnil, fun h => by rw [hall h]⟩, hall, herr⟩⟩

/-- The example runtime grows every slice of up to 8 references. -/
theorem exampleGrowslice_small (c l : Nat) (hc : c < l) (hl : l ≤ 2 * 4) :
    (exampleGrowslice c l).isSome = true := by
  have hfit : max (2 * c) l * elemSize ≤ 2 ^ 30 := by
    have hmax : max (2 * c) l ≤ 16 := by
      rcases Nat.le_total (2 * c) l with h | h
      · rw [Nat.max_eq_right h]; omega
      · rw [Nat.max_eq_left h]; omega
    have := Nat.mul_le_mul_right elemSize hmax
    have h16 : 16 * elemSize ≤ 2 ^ 30 := by decide
    omega
  have hcan : exampleCanAllocate (max (2 * c) l * elemSize) = true := by
    simp only [exampleCanAllocate, decide_eq_true_eq]
    exact hfit
  unfold exampleGrowslice
  rw [if_pos hcan]
  rfl

/-- Witness of C8 amended: four indices on the example runtime, `GetPath` failing from
index 2 on: both functions return the error of index 2 after asking for `"0"`, `"1"` and
`"2"`. -/
theorem Construct_requests_paths_in_order_witness :
    2 * 4 * elemSize ≤ maxAlloc
    ∧ envPathFailsFromTwo.canAllocate (4 * elemSize) = true
    ∧ (∀ c l, c < l → l ≤ 2 * 4 → (envPathFailsFromTwo.growslice c l).isSome = true)
    ∧ ConstructInputReaders envPathFailsFromTwo { name := "store" } "s3://in" 4
        = ⟨Outcome.returned (some (GoError.plain "no path for 2")),
            [("s3://in", "0"), ("s3://in", "1"), ("s3://in", "2")]⟩
    ∧ ConstructOutputWriters envPathFailsFromTwo { name := "store" } "s3://out" 4
        = ⟨Outcome.returned (some (GoError.plain "no path for 2")),
            [("s3://out", "0"), ("s3://out", "1"), ("s3://out", "2")]⟩ :=
  ⟨by decide, by decide, exampleGrowslice_small,
    (Construct_requests_paths_in_order envPathFailsFromTwo { name := "store" }
      "s3://in" 4 (by decide) (by decide) exampleGrowslice_small).1.2.2 2
      (GoError.plain "no path for 2") (by decide) rfl
      (fun i hi => by interval_cases i <;> exact ⟨_, rfl⟩),
    (Construct_requests_paths_in_order envPathFailsFromTwo { name := "store" }
      "s3://out" 4 (by decide) (by decide) exampleGrowslice_small).2.2.2 2
      (GoError.plain "no path for 2") (by decide) rfl
      (fun i hi => by interval_cases i <;> exact ⟨_, rfl⟩)⟩

/-! ## `DetermineDiscoverability` -/

/-- C4: when the task reader succeeds with a nil template, `DetermineDiscoverability`
returns the input state itself (hence the same phase, array size and array status)
together with an error of code `BadTaskSpecification`, and asks for no path. -/
theorem DetermineDiscoverability_nil_template (env : Env) (tCtx : TaskExecutionContext)
    (state : State) (hread : tCtx.Read = (none, none)) :
    ∃ s err,
      DetermineDiscoverability env tCtx state = ⟨Outcome.returned (s, some err), []⟩
      ∧ err.code = some BadTaskSpecification
      ∧ s = state
      ∧ s.GetPhase = state.GetPhase
      ∧ s.GetActualArraySize = state.GetActualArraySize
      ∧ s.GetArrayStatus = state.GetArrayStatus := by
  refine ⟨state, Errorf BadTaskSpecification "Required value not set, taskTemplate is nil",
    ?_, rfl, rfl, rfl, rfl, rfl⟩
  simp [DetermineDiscoverability, hread]

/-- Witness of C4: a context whose reader yields a nil template. -/
theorem DetermineDiscoverability_nil_template_witness :
    (contextOf none).Read = (none, none)
    ∧ ∃ s err,
      DetermineDiscoverability (envOfSize 3) (contextOf none) exampleState
        = ⟨Outcome.returned (s, some err), []⟩
      ∧ err.code = some BadTaskSpecification
      ∧ s = exampleState
      ∧ s.GetPhase = exampleState.GetPhase
      ∧ s.GetActualArraySize = exampleState.GetActualArraySize
      ∧ s.GetArrayStatus = exampleState.GetArrayStatus :=
  ⟨rfl, DetermineDiscoverability_nil_template (envOfSize 3) (contextOf none) exampleState rfl⟩

/-- C5, as stated, fails: the template is not nil and the unmarshaller rejects its
descriptor with an error that has no task code; `DetermineDiscoverability` returns that
very error, so no returned error has code `BadTaskSpecification`. -/
theorem DetermineDiscoverability_undecodable_counterexample :
    (contextOf (some undecodableTemplate)).Read = (some undecodableTemplate, none)
    ∧ (ToArrayJob envUndecodable undecodableTemplate.GetCustom).2
        = some (GoError.plain "json: cannot unmarshal")
    ∧ DetermineDiscoverability envUndecodable (contextOf (some undecodableTemplate))
          exampleState
        = ⟨Outcome.returned (exampleState, some (GoError.plain "json: cannot unmarshal")), []⟩
    ∧ (GoError.plain "json: cannot unmarshal").code = none
    ∧ ¬ ∃ s err,
        (DetermineDiscoverability envUndecodable (contextOf (some undecodableTemplate))
            exampleState).outcome = Outcome.returned (s, some err)
        ∧ err.code = some BadTaskSpecification := by
  refine ⟨rfl, rfl, by decide, rfl, ?_⟩
  rintro ⟨s, err, hout, hcode⟩
  have hrun : (DetermineDiscoverability envUndecodable (contextOf (some undecodableTemplate))
      exampleState).outcome
      = Outcome.returned (exampleState, some (GoError.plain "json: cannot unmarshal")) := by
    decide
  rw [hrun] at hout
  cases hout
  cases hcode

/-- C5, amended: for a non-nil template whose descriptor cannot be decoded
(`ToArrayJob` returns the error `e`), `DetermineDiscoverability` fails with `e` itself,
not wrapped and not recoded, returns the input state and asks for no path. -/
theorem DetermineDiscoverability_undecodable (env : Env) (tCtx : TaskExecutionContext)
    (state : State) (taskTemplate : TaskTemplate) (e : GoError)
    (hread : tCtx.Read = (some taskTemplate, none))
    (hdecode : (ToArrayJob env taskTemplate.GetCustom).2 = some e) :
    DetermineDiscoverability env tCtx state = ⟨Outcome.returned (state, some e), []⟩ := by
  have hpair : ToArrayJob env taskTemplate.GetCustom
      = ((ToArrayJob env taskTemplate.GetCustom).1, some e) := by
    rw [← hdecode]
  simp only [DetermineDiscoverability, hread]
  rw [hpair]
  rfl

/-- Witness of C5 amended: the undecodable template of the counterexample. -/
theorem DetermineDiscoverability_undecodable_witness :
    (contextOf (some undecodableTemplate)).Read = (some undecodableTemplate, none)
    ∧ (ToArrayJob envUndecodable undecodableTemplate.GetCustom).2
        = some (GoError.plain "json: cannot unmarshal")
    ∧ DetermineDiscoverability envUndecodable (contextOf (some undecodableTemplate))
          exampleState
        = ⟨Outcome.returned (exampleState, some (GoError.plain "json: cannot unmarshal")),
            []⟩ :=
  ⟨rfl, rfl, DetermineDiscoverability_undecodable envUndecodable
    (contextOf (some undecodableTemplate)) exampleState undecodableTemplate
    (GoError.plain "json: cannot unmarshal") rfl rfl⟩

/-- For a template that is not marked discoverable and whose descriptor decodes,
`DetermineDiscoverability` returns the input state itself and no error. -/
theorem DetermineDiscoverability_not_discoverable (env : Env) (tCtx : TaskExecutionContext)
    (state : State) (taskTemplate : TaskTemplate)
    (hread : tCtx.Read = (some taskTemplate, none))
    (hdecode : (ToArrayJob env taskTemplate.GetCustom).2 = none)
    (hmeta : taskTemplate.Metadata = none
      ∨ taskTemplate.Metadata = some { Discoverable := false }) :
    DetermineDiscoverability env tCtx state = ⟨Outcome.returned (state, none), []⟩ := by
  have hpair : ToArrayJob env taskTemplate.GetCustom
      = (some (env.UnmarshalStruct taskTemplate.GetCustom
          { Parallelism := 0, Size := 0, MinSuccesses := 0 }).1, none) := by
    rw [← hdecode]; rfl
  simp only [DetermineDiscoverability, hread]
  rw [hpair]
  rcases hmeta with h | h <;> simp [h]

/-- C6, the code at a failing input: a template without metadata, a descriptor that
decodes to size 3, and a state in `PhaseNotStarted`: `DetermineDiscoverability` returns no
error and the input state itself, whose phase ordinal is still 0 and therefore not
greater than the input's. -/
theorem DetermineDiscoverability_not_discoverable_keeps_phase :
    plainTemplate.Metadata = none
    ∧ ToArrayJob (envOfSize 3) plainTemplate.GetCustom
        = (some { Parallelism := 0, Size := 3, MinSuccesses := 0 }, none)
    ∧ ∃ s,
      DetermineDiscoverability (envOfSize 3) (contextOf (some plainTemplate)) exampleState
        = ⟨Outcome.returned (s, none), []⟩
      ∧ s.GetPhase = PhaseNotStarted
      ∧ ¬ exampleState.GetPhase < s.GetPhase :=
  ⟨rfl, rfl, exampleState, by decide, rfl, by decide⟩

/-- C9, the code at a failing input: a discoverable template of size 1 and a data store
whose path construction fails: `ConstructInputReaders` and `ConstructOutputWriters` both
return the error, and `DetermineDiscoverability` returns a nil error all the same. -/
theorem DetermineDiscoverability_drops_path_error :
    ConstructInputReaders envPathFails { name := "store" } "s3://in" 1
        = ⟨Outcome.returned (some (GoError.plain "failed to construct path")),
            [("s3://in", "0")]⟩
    ∧ ConstructOutputWriters envPathFails { name := "store" } "s3://out" 1
        = ⟨Outcome.returned (some (GoError.plain "failed to construct path")),
            [("s3://out", "0")]⟩
    ∧ DetermineDiscoverability envPathFails (contextOf (some discoverableTemplate))
          exampleState
        = ⟨Outcome.returned (exampleState, none), [("s3://in", "0"), ("s3://out", "0")]⟩ :=
  ⟨by decide, by decide, by decide⟩

/-- C10, the code at a failing input: a discoverable template whose descriptor decodes
to size -1: the allocation in `ConstructInputReaders` panics and so does
`DetermineDiscoverability`, before any path is asked for. -/
theorem DetermineDiscoverability_negative_size_panics :
    ToArrayJob (envOfSize (-1)) discoverableTemplate.GetCustom
        = (some { Parallelism := 0, Size := -1, MinSuccesses := 0 }, none)
    ∧ ConstructInputReaders (envOfSize (-1)) { name := "store" } "s3://in" (-1)
        = ⟨Outcome.panicked "makeslice: len out of range", []⟩
    ∧ DetermineDiscoverability (envOfSize (-1)) (contextOf (some discoverableTemplate))
          exampleState
        = ⟨Outcome.panicked "makeslice: len out of range", []⟩ :=
  ⟨rfl, by decide, by decide⟩

end k8sarray

/-! ## The monitoring step -/

namespace awsbatch

open arrayCore.Phase

/-- The test `Not in cache`: sizes 10 and 5, no job in the store: no error, and the state
(hence the phase `CheckingSubTaskExecutions`) is returned as it is. -/
theorem CheckSubTasksState_not_in_cache :
    CheckSubTasksState "generated-name" emptyStore succeededState = (succeededState, none) := by
  decide

/-- Scenario D: with `ExecutionArraySize` 0 the phase goes straight to `WriteToDiscovery`,
whatever the store holds. -/
theorem CheckSubTasksState_nothing_to_execute (jobName : String) (jobStore : JobStore)
    (currentState : State) (hzero : currentState.ExecutionArraySize = 0) :
    CheckSubTasksState jobName jobStore currentState
      = ({ currentState with CurrentPhase := PhaseWriteToDiscovery }, none) := by
  simp [CheckSubTasksState, hzero]

/-- A failed backend poll comes back as a `DownstreamSystemError` that wraps it, with the
state as it was. -/
theorem CheckSubTasksState_poll_error (jobName : String) (jobStore : JobStore)
    (currentState : State) (e : GoError) (hsize : currentState.ExecutionArraySize ≠ 0)
    (hget : jobStore.Get jobName = Except.error e) :
    ∃ err, CheckSubTasksState jobName jobStore currentState = (currentState, some err)
      ∧ err.code = some DownstreamSystemError ∧ err.cause = some e := by
  refine ⟨Wrapf DownstreamSystemError e
    ("Failed to refresh the sub-jobs of [" ++ jobName ++ "]"), ?_, rfl, rfl⟩
  unfold CheckSubTasksState
  rw [if_neg hsize, hget]

end awsbatch

end Flyteplugins
